import Mathlib

/-!
DoodlAI front end (src/frontend/src/App.js)

A shallow embedding of the React component tree of `App.js`.

* React state (`useState`) is a record, `AppState`.  An event handler is a
  closure created by one render: it *reads* the values of that render and
  *writes* through the setters.  Every handler is therefore a function of two
  arguments, the render it was created in (`snap`) and the world it is applied
  to; a setter called with a value overwrites, a setter called with a function
  (`setScore(prev => prev + points)`) reads the current value.
* A `<canvas>` element is a mutable object reached through a reference;
  the elements live in `World.dom`.
* Asynchronous continuations (the 100 ms timeout of `startGame`, the
  continuation of `predictDrawing` after `await fetch`) are queued in the world
  together with the render that created them and run by their own events.
* A JavaScript number is an IEEE 754 double, modelled as the rational it
  denotes; a product, quotient or difference of doubles is the exact result
  rounded to the nearest double (`toDouble`), and a number read from JSON is
  the nearest double of the number written.  Counters (score, round, seconds)
  are integers, on which double arithmetic is exact below `2 ^ 53`, and the
  product `Math.random() * 8` is exact, 8 being a power of two.
-/

namespace DoodlAI

/-! ## Data model -/

/-- Source line 18: `const CATEGORIES = [...]`. -/
def CATEGORIES : List String :=
  ["cat", "dog", "house", "tree", "car", "apple", "banana", "clock"]

/-- Values taken by the `gameState` string:
`'idle'`, `'drawing'`, `'playing'`, `'round-complete'`, `'game-over'`. -/
inductive GameState where
  | idle
  | drawing
  | playing
  | roundComplete
  | gameOver
  deriving DecidableEq, Repr

/-- Values taken by the `apiStatus` string:
`'checking'`, `'ready'`, `'no-model'`, `'error'`. -/
inductive ApiStatus where
  | checking
  | ready
  | noModel
  | error
  deriving DecidableEq, Repr

/-- One entry of `result.predictions`, as written in the response body;
`probability` is documented to lie in `[0, 1]`. -/
structure Prediction where
  category : String
  probability : ℚ
  deriving DecidableEq

/-- Pixel colours: the transparent black of a reset bitmap, `'white'`,
the ink `'#2c3e50'`, the default `'#000000'`, and any other colour. -/
inductive Color where
  | transparent
  | white
  | ink
  | black
  | other (rgba : Nat)
  deriving DecidableEq, Repr

/-- Pixels written by one platform drawing call (a stroke or an image):
`some c` where the call writes colour `c`, `none` where it leaves the pixel. -/
abbrev Overlay := Nat → Nat → Option Color

/-- A `<canvas>` element together with the state of its 2d context. -/
structure Canvas where
  width : Nat
  height : Nat
  pixels : Nat → Nat → Color
  fillStyle : Color
  strokeStyle : Color
  lineWidth : Nat
  roundCap : Bool
  roundJoin : Bool
  path : List (ℚ × ℚ)

/-- A canvas element as `document.createElement('canvas')` makes it:
300 x 150, transparent, context in its default state. -/
def Canvas.fresh : Canvas where
  width := 300
  height := 150
  pixels := fun _ _ => Color.transparent
  fillStyle := Color.black
  strokeStyle := Color.black
  lineWidth := 1
  roundCap := false
  roundJoin := false
  path := []

/-- Assigning `canvas.width` (also to the value it already has) clears the
bitmap to transparent black and resets the context to its default state. -/
def Canvas.setWidth (n : Nat) (c : Canvas) : Canvas :=
  { Canvas.fresh with width := n, height := c.height }

/-- Assigning `canvas.height`, with the same reset as `setWidth`. -/
def Canvas.setHeight (n : Nat) (c : Canvas) : Canvas :=
  { Canvas.fresh with width := c.width, height := n }

/-- The call `ctx.fillRect(x0, y0, w, h)` for integer arguments: pixels of the
rectangle that lie on the bitmap take the fill style. -/
def Canvas.fillRect (x0 y0 w h : Nat) (c : Canvas) : Canvas :=
  { c with pixels := fun x y =>
      if x0 ≤ x ∧ x < x0 + w ∧ y0 ≤ y ∧ y < y0 + h ∧ x < c.width ∧ y < c.height
      then c.fillStyle else c.pixels x y }

/-- Writes the pixels of an overlay that lie on the bitmap. -/
def Canvas.paint (o : Overlay) (c : Canvas) : Canvas :=
  { c with pixels := fun x y =>
      if x < c.width ∧ y < c.height then (o x y).getD (c.pixels x y) else c.pixels x y }

/-- Reference to a canvas element. -/
abbrev CanvasRef := Nat

/-- The `useState` cells of `App` (source lines 109-120). -/
structure AppState where
  canvas : Option CanvasRef
  prediction : Option Prediction
  brushSize : Nat
  isErasing : Bool
  score : Int
  round : Nat
  targetCategory : Option String
  gameState : GameState
  loading : Bool
  timeLeft : Int
  totalRounds : Nat
  apiStatus : ApiStatus
  deriving DecidableEq

/-- Initial values of the `useState` cells. -/
def AppState.init : AppState where
  canvas := none
  prediction := none
  brushSize := 10
  isErasing := false
  score := 0
  round := 1
  targetCategory := some ""
  gameState := GameState.idle
  loading := false
  timeLeft := 60
  totalRounds := 5
  apiStatus := ApiStatus.checking

/-- What the program sends to the outside. -/
inductive Output where
  | alert (msg : String)
  | consoleError (msg : String)
  | healthRequest
  | predictRequest (image : Canvas)

/-- The running page. -/
structure World where
  /-- Current values of the state cells of `App`. -/
  app : AppState
  /-- Canvas elements by reference. -/
  dom : CanvasRef → Canvas
  /-- Next unused reference. -/
  nextRef : CanvasRef
  /-- Value of `canvasRef.current` of the mounted `DrawingCanvas`, if any. -/
  mounted : Option CanvasRef
  /-- State cell `isDrawing` of the mounted `DrawingCanvas`. -/
  isDrawing : Bool
  /-- Whether the interval of the timer effect is live. -/
  timer : Bool
  /-- Renders whose `startGame` timeout has not fired yet, oldest first. -/
  timeouts : List AppState
  /-- Renders whose `predictDrawing` awaits its response. -/
  inflight : List AppState
  /-- Renders whose `handleImageUpload` awaits the decoded image. -/
  decoding : List AppState
  /-- Number of health probes awaiting their response. -/
  probes : Nat
  /-- Alerts, console messages and requests, oldest first. -/
  log : List Output

/-- Replaces the state cells. -/
def World.setApp (w : World) (f : AppState → AppState) : World :=
  { w with app := f w.app }

/-- Mutates the canvas element behind a reference. -/
def World.mutate (w : World) (r : CanvasRef) (f : Canvas → Canvas) : World :=
  { w with dom := Function.update w.dom r (f (w.dom r)) }

/-- Appends to the log. -/
def World.emit (w : World) (o : Output) : World :=
  { w with log := w.log ++ [o] }

/-! ## Platform values -/

/-- A result of `Math.random()`: a number in `[0, 1)`. -/
structure Rand where
  val : ℚ
  nonneg : 0 ≤ val
  lt_one : val < 1

/-- Exponent of the binade of a real, the floor of the base 2 logarithm of its
magnitude, held at `-1022` in the subnormal range. -/
def binade (x : ℚ) : Int := max (Int.log 2 |x|) (-1022)

/-- Distance between neighbouring doubles in the binade of `x`: a double has
53 significant bits. -/
def ulp (x : ℚ) : ℚ := 2 ^ (binade x - 52)

/-- Nearest integer, a tie going to the even one. -/
def roundHalfEven (q : ℚ) : Int :=
  if q - ⌊q⌋ < 1 / 2 then ⌊q⌋
  else if 1 / 2 < q - ⌊q⌋ then ⌊q⌋ + 1
  else if ⌊q⌋ % 2 = 0 then ⌊q⌋ else ⌊q⌋ + 1

/-- The double nearest to a real, ties to even: the rounding of IEEE 754
binary64 arithmetic and of `JSON.parse`, for reals of magnitude below
`2 ^ 1024` (beyond, the double is an infinity, which this does not model). -/
def toDouble (x : ℚ) : ℚ := roundHalfEven (x / ulp x) * ulp x

/-- The product `a * b` of two doubles. -/
def fmul (a b : ℚ) : ℚ := toDouble (a * b)

/-- The quotient `a / b` of two doubles, `b` not zero. -/
def fdiv (a b : ℚ) : ℚ := toDouble (a / b)

/-- The difference `a - b` of two doubles. -/
def fsub (a b : ℚ) : ℚ := toDouble (a - b)

/-- The call `Math.round(x)` on a double: the nearest integer, halves upwards. -/
def mathRound (x : ℚ) : Int := ⌊x + 1 / 2⌋

/-- Source line 167: `Math.floor(Math.random() * CATEGORIES.length)`. -/
def randomIndex (rnd : Rand) : Nat := ⌊rnd.val * (CATEGORIES.length : ℚ)⌋₊

/-- A parsed JSON value. -/
inductive Json where
  | null
  | bool (b : Bool)
  | num (q : ℚ)
  | str (s : String)
  | arr (items : List Json)
  | obj (fields : List (String × Json))

/-- JavaScript truthiness of a JSON value. -/
def Json.truthy : Json → Bool
  | Json.null => false
  | Json.bool b => b
  | Json.num q => decide (q ≠ 0)
  | Json.str s => decide (s ≠ "")
  | Json.arr _ => true
  | Json.obj _ => true

/-- Property lookup in the field list of an object; a repeated key keeps the
last value, as `JSON.parse` does.  The result `none` is `undefined`. -/
def lookupField (key : String) : List (String × Json) → Option Json
  | [] => none
  | (k, v) :: rest =>
    match lookupField key rest with
    | some later => some later
    | none => if k = key then some v else none

/-- The expression `data.model_loaded ? ... : ...` as a test: `none` when the
property access throws (`data` is `null`), else the truthiness of the
property, a missing property being `undefined`, which is falsy. -/
def modelLoaded : Json → Option Bool
  | Json.null => none
  | Json.obj fields =>
    match lookupField "model_loaded" fields with
    | some v => some v.truthy
    | none => some false
  | _ => some false

/-- How `fetch('/health')` followed by `response.json()` can end. -/
inductive HealthOutcome where
  /-- The promise of `fetch` rejects. -/
  | transportFailure
  /-- A response arrives, `ok` is `response.ok`; `body` is `none` when
  `response.json()` rejects. -/
  | response (ok : Bool) (body : Option Json)

/-- How `fetch('/predict')` followed by `response.json()` can end. -/
inductive PredictOutcome where
  /-- The promise of `fetch` rejects. -/
  | transportFailure
  /-- A response with `response.ok` false. -/
  | httpError (status : Nat)
  /-- The response is ok and reading the result throws: `response.json()` rejects or
  the body is `null`. -/
  | malformed
  /-- The response is ok with body `result`; `predictions` is `none` when
  `result.predictions` is missing or falsy. -/
  | ok (predictions : Option (List Prediction))

/-- A decoded image handed to `img.onload`: its size in pixels (an
`unsigned long`, below `2 ^ 32`) and what
`ctx.drawImage(img, x, y, w, h)` writes. -/
structure Image where
  width : Nat
  height : Nat
  draw : ℚ → ℚ → ℚ → ℚ → Overlay

/-! ## DrawingCanvas (source lines 20-105) -/

/-- Body of the effect of source lines 25-42 on the element. -/
def Canvas.init (brushSize : Nat) (isErasing : Bool) (c : Canvas) : Canvas :=
  let c1 := (c.setWidth 280).setHeight 280
  let c2 := { c1 with fillStyle := Color.white }
  let c3 := c2.fillRect 0 0 c2.width c2.height
  { c3 with
    roundCap := true
    roundJoin := true
    lineWidth := brushSize
    strokeStyle := if isErasing then Color.white else Color.ink }

/-- The effect of source lines 25-42 for a render with props taken from
`snap`: initialises the element and calls `onCanvasReady`, which is
`setCanvas`. -/
def DrawingCanvas.effect (snap : AppState) (w : World) : World :=
  match w.mounted with
  | none => w
  | some r =>
    (w.mutate r (Canvas.init snap.brushSize snap.isErasing)).setApp
      (fun s => { s with canvas := some r })

/-- Source lines 44-54, `startDrawing` at surface coordinates `(x, y)`:
`beginPath()` empties the path and `moveTo` starts it. -/
def DrawingCanvas.startDrawing (x y : ℚ) (w : World) : World :=
  match w.mounted with
  | none => w
  | some r => { w.mutate r (fun c => { c with path := [(x, y)] }) with isDrawing := true }

/-- Source lines 56-65, `draw`: `stroked` is what `context.stroke()` writes
for the extended path. -/
def DrawingCanvas.draw (x y : ℚ) (stroked : Overlay) (w : World) : World :=
  if w.isDrawing then
    match w.mounted with
    | none => w
    | some r => w.mutate r (fun c => ({ c with path := c.path ++ [(x, y)] }).paint stroked)
  else w

/-- Source lines 67-72, `stopDrawing`; `closePath()` paints nothing and keeps
the points of the path. -/
def DrawingCanvas.stopDrawing (w : World) : World :=
  match w.mounted with
  | none => w
  | some _ => { w with isDrawing := false }

/-! ## App handlers (source lines 126-271) -/

/-- Source lines 126-135, `checkApiHealth`, with the outcome of its request. -/
def checkApiHealth (o : HealthOutcome) (w : World) : World :=
  match o with
  | HealthOutcome.transportFailure =>
    (w.emit (Output.consoleError "API health check failed:")).setApp
      (fun s => { s with apiStatus := ApiStatus.error })
  | HealthOutcome.response _ none =>
    (w.emit (Output.consoleError "API health check failed:")).setApp
      (fun s => { s with apiStatus := ApiStatus.error })
  | HealthOutcome.response _ (some data) =>
    match modelLoaded data with
    | none =>
      (w.emit (Output.consoleError "API health check failed:")).setApp
        (fun s => { s with apiStatus := ApiStatus.error })
    | some loaded =>
      w.setApp (fun s =>
        { s with apiStatus := if loaded then ApiStatus.ready else ApiStatus.noModel })

/-- Source lines 174-181, `clearCanvas`. -/
def clearCanvas (snap : AppState) (w : World) : World :=
  match snap.canvas with
  | none => w
  | some r =>
    (w.mutate r (fun c =>
        let c1 := { c with fillStyle := Color.white }
        c1.fillRect 0 0 c1.width c1.height)).setApp
      (fun s => { s with prediction := none })

/-- Source lines 161-172, `nextRound`. -/
def nextRound (snap : AppState) (rnd : Rand) (w : World) : World :=
  if snap.round ≥ snap.totalRounds then
    w.setApp (fun s => { s with gameState := GameState.gameOver })
  else
    let w1 := w.setApp (fun s => { s with targetCategory := CATEGORIES[randomIndex rnd]? })
    let w2 := clearCanvas snap w1
    let w3 := w2.setApp (fun s => { s with prediction := none })
    w3.setApp (fun s => { s with round := s.round + 1 })

/-- Source lines 149-159, `startGame`: the setters, and the timeout that will
call the `nextRound` of this render. -/
def startGame (snap : AppState) (w : World) : World :=
  let w1 := w.setApp (fun s =>
    { s with
      gameState := GameState.playing
      score := 0
      round := 1
      timeLeft := 60
      prediction := none })
  { w1 with timeouts := w1.timeouts ++ [snap] }

/-- Source lines 183-204, `predictDrawing` up to `await fetch`. -/
def predictDrawing (snap : AppState) (w : World) : World :=
  if snap.apiStatus ≠ ApiStatus.ready then
    w.emit (Output.alert "API is not ready. Please make sure the backend is running.")
  else
    match snap.canvas with
    | none => w.emit (Output.alert "Canvas not available")
    | some r =>
      let w1 := w.setApp (fun s => { s with loading := true })
      let w2 := w1.emit (Output.predictRequest (w1.dom r))
      { w2 with inflight := w2.inflight ++ [snap] }

/-- Source lines 206-226, `predictDrawing` from the response on. -/
def predictDrawingResume (snap : AppState) (o : PredictOutcome) (w : World) : World :=
  let w1 :=
    match o with
    | PredictOutcome.ok (some (top :: _)) =>
      let w2 := w.setApp (fun s => { s with prediction := some top })
      if snap.gameState = GameState.playing ∧ some top.category = snap.targetCategory then
        let points := mathRound (fmul (toDouble top.probability) 100)
        (w2.setApp (fun s => { s with score := s.score + points })).setApp
          (fun s => { s with gameState := GameState.roundComplete })
      else w2
    | PredictOutcome.ok _ => w
    | _ =>
      (w.emit (Output.consoleError "Prediction error:")).emit
        (Output.alert "Prediction failed. Please check if the backend is running.")
  w1.setApp (fun s => { s with loading := false })

/-- The destination rectangle of a `drawImage` call. -/
structure Rect where
  x : ℚ
  y : ℚ
  width : ℚ
  height : ℚ

/-- Source lines 244-248: the rectangle `(x, y, width, height)` passed to
`drawImage`, from the sizes of the canvas and of the image, in double
arithmetic. -/
def imageRect (canvasWidth canvasHeight imgWidth imgHeight : ℚ) : Rect :=
  let scale := min (fdiv canvasWidth imgWidth) (fdiv canvasHeight imgHeight)
  let width := fmul imgWidth scale
  let height := fmul imgHeight scale
  let x := fdiv (fsub canvasWidth width) 2
  let y := fdiv (fsub canvasHeight height) 2
  { x := x, y := y, width := width, height := height }

/-- Source lines 236-253, the `img.onload` callback of `handleImageUpload`. -/
def imgOnload (snap : AppState) (img : Image) (w : World) : World :=
  match snap.canvas with
  | none => w
  | some r =>
    let w1 := w.mutate r (fun c =>
      let c1 := { c with fillStyle := Color.white }
      let c2 := c1.fillRect 0 0 c1.width c1.height
      let rect := imageRect c2.width c2.height img.width img.height
      c2.paint (img.draw rect.x rect.y rect.width rect.height))
    predictDrawing snap w1

/-- Source lines 268-271, `goToHome`. -/
def goToHome (w : World) : World :=
  w.setApp (fun s => { s with gameState := GameState.idle, prediction := none })

/-- Source lines 137-147, body of the timer effect for a render with the
values of `snap`; the interval of the previous run has been cleared. -/
def timerEffect (snap : AppState) (w : World) : World :=
  if snap.gameState = GameState.playing ∧ snap.timeLeft > 0 then
    { w with timer := true }
  else if snap.timeLeft = 0 ∧ snap.gameState = GameState.playing then
    w.setApp (fun s => { s with gameState := GameState.gameOver })
  else w

/-- Source lines 140-142, the interval callback `setTimeLeft(prev => prev - 1)`,
which runs only while the interval is live. -/
def intervalTick (w : World) : World :=
  if w.timer then w.setApp (fun s => { s with timeLeft := s.timeLeft - 1 }) else w

/-! ## Rendering and effects -/

/-- Whether the JSX of source lines 490-536 contains `<DrawingCanvas>` (and
the tools panel) for a render with the values of `s`. -/
def canvasShown (s : AppState) : Bool :=
  decide (s.apiStatus ≠ ApiStatus.error ∧ s.apiStatus ≠ ApiStatus.noModel) &&
    decide (s.gameState = GameState.playing ∨ s.gameState = GameState.drawing)

/-- Whether the error screen of source lines 490-498 is shown. -/
def errorShown (s : AppState) : Bool :=
  decide (s.apiStatus = ApiStatus.error ∨ s.apiStatus = ApiStatus.noModel)

/-- What committing the render `snap` does to `DrawingCanvas`, `prev` being
the render before: a new element and the effect on mount, the effect again
when `brushSize` or `isErasing` changed (the dependency list of source
line 42), nothing when neither did, and the loss of the ref on unmount. -/
def DrawingCanvas.commit (prev snap : AppState) (w : World) : World :=
  if canvasShown snap then
    match w.mounted with
    | none =>
      let r := w.nextRef
      DrawingCanvas.effect snap
        { w with
          dom := Function.update w.dom r Canvas.fresh
          nextRef := r + 1
          mounted := some r
          isDrawing := false }
    | some _ =>
      if snap.brushSize = prev.brushSize ∧ snap.isErasing = prev.isErasing then w
      else DrawingCanvas.effect snap w
  else { w with mounted := none }

/-- What committing the render `snap` does to the timer effect (dependency
list of source line 147): when `gameState` or `timeLeft` changed, the cleanup
clears the interval and the body runs again. -/
def timerCommit (prev snap : AppState) (w : World) : World :=
  if snap.gameState = prev.gameState ∧ snap.timeLeft = prev.timeLeft then w
  else timerEffect snap { w with timer := false }

/-- One render of the state in `w` and its effects, child first. -/
def renderPass (prev : AppState) (w : World) : World :=
  timerCommit prev w.app (DrawingCanvas.commit prev w.app w)

/-- Renders until the effects set no more state: the effects of the first
render may set `canvas` or `gameState`, those of the second set nothing. -/
def commit (prev : AppState) (w : World) : World :=
  renderPass w.app (renderPass prev w)

/-- The page after the first render of `App`: the health probe of source
lines 122-124 is under way. -/
def World.init : World where
  app := AppState.init
  dom := fun _ => Canvas.fresh
  nextRef := 0
  mounted := none
  isDrawing := false
  timer := false
  timeouts := []
  inflight := []
  decoding := []
  probes := 1
  log := [Output.healthRequest]

/-! ## Events -/

/-- What can happen to the page. -/
inductive Event where
  /-- A health probe ends. -/
  | healthDone (o : HealthOutcome)
  /-- Click on Retry Connection. -/
  | retry
  /-- Click on Start Game or on Play Again. -/
  | start
  /-- The oldest timeout of `startGame` fires. -/
  | timeout (rnd : Rand)
  /-- Click on Next Round. -/
  | next (rnd : Rand)
  /-- Click on Free Draw. -/
  | freeDraw
  /-- Click on the logo or on Home. -/
  | home
  /-- Click on Clear. -/
  | clear
  /-- Click on Analyze. -/
  | analyze
  /-- The request number `i` in flight ends. -/
  | response (i : Nat) (o : PredictOutcome)
  /-- A file is chosen in the file input. -/
  | chooseFile
  /-- The upload number `i` has been decoded. -/
  | imageLoaded (i : Nat) (img : Image)
  /-- Click on Draw or on Erase. -/
  | setErasing (b : Bool)
  /-- The slider moves. -/
  | setBrushSize (n : Nat)
  /-- Mouse down or touch start on the canvas. -/
  | pointerDown (x y : ℚ)
  /-- Mouse or touch move on the canvas. -/
  | pointerMove (x y : ℚ) (stroked : Overlay)
  /-- Mouse up, mouse leave or touch end. -/
  | pointerUp
  /-- The interval of the timer effect elapses. -/
  | tick

/-- Whether the control of an event is on the page and enabled. -/
def enabled (e : Event) (w : World) : Bool :=
  match e with
  | Event.healthDone _ => decide (0 < w.probes)
  | Event.retry => errorShown w.app
  | Event.start =>
    !errorShown w.app &&
      (decide (w.app.gameState = GameState.idle ∧ w.app.apiStatus = ApiStatus.ready) ||
        decide (w.app.gameState = GameState.gameOver))
  | Event.timeout _ => !w.timeouts.isEmpty
  | Event.next _ => !errorShown w.app && decide (w.app.gameState = GameState.roundComplete)
  | Event.freeDraw => !errorShown w.app && decide (w.app.gameState = GameState.idle)
  | Event.home => true
  | Event.clear => canvasShown w.app
  | Event.analyze => canvasShown w.app && !w.app.loading
  | Event.response i _ => decide (i < w.inflight.length)
  | Event.chooseFile => canvasShown w.app
  | Event.imageLoaded i _ => decide (i < w.decoding.length)
  | Event.setErasing _ => canvasShown w.app
  | Event.setBrushSize n => canvasShown w.app && decide (1 ≤ n ∧ n ≤ 30)
  | Event.pointerDown _ _ => canvasShown w.app
  | Event.pointerMove _ _ _ => canvasShown w.app
  | Event.pointerUp => canvasShown w.app
  | Event.tick => w.timer

/-- The handler of an event, applied by the render on the page. -/
def handle (e : Event) (w : World) : World :=
  match e with
  | Event.healthDone o => checkApiHealth o { w with probes := w.probes - 1 }
  | Event.retry => { w.emit Output.healthRequest with probes := w.probes + 1 }
  | Event.start => startGame w.app w
  | Event.timeout rnd =>
    match w.timeouts with
    | [] => w
    | snap :: rest => nextRound snap rnd { w with timeouts := rest }
  | Event.next rnd => nextRound w.app rnd w
  | Event.freeDraw => w.setApp (fun s => { s with gameState := GameState.drawing })
  | Event.home => goToHome w
  | Event.clear => clearCanvas w.app w
  | Event.analyze => predictDrawing w.app w
  | Event.response i o =>
    match w.inflight.get? i with
    | none => w
    | some snap => predictDrawingResume snap o { w with inflight := w.inflight.eraseIdx i }
  | Event.chooseFile => { w with decoding := w.decoding ++ [w.app] }
  | Event.imageLoaded i img =>
    match w.decoding.get? i with
    | none => w
    | some snap => imgOnload snap img { w with decoding := w.decoding.eraseIdx i }
  | Event.setErasing b => w.setApp (fun s => { s with isErasing := b })
  | Event.setBrushSize n => w.setApp (fun s => { s with brushSize := n })
  | Event.pointerDown x y => DrawingCanvas.startDrawing x y w
  | Event.pointerMove x y stroked => DrawingCanvas.draw x y stroked w
  | Event.pointerUp => DrawingCanvas.stopDrawing w
  | Event.tick => intervalTick w

/-- One event: its handler, then the renders and effects it causes. -/
def dispatch (e : Event) (w : World) : World :=
  if enabled e w then commit w.app (handle e w) else w

/-- Runs a list of events, first to last. -/
def run (es : List Event) (w : World) : World :=
  es.foldl (fun acc e => dispatch e acc) w

/-- The worlds the page can be in. -/
inductive Reachable : World → Prop where
  | init : Reachable World.init
  | step (e : Event) (w : World) : Reachable w → Reachable (dispatch e w)

/-! ## Composite behaviours and observations -/

/-- A click on Analyze whose response `o` arrives before any other event. -/
def analyzeThen (o : PredictOutcome) (w : World) : World :=
  handle (Event.response w.inflight.length o) (handle Event.analyze w)

/-- The outcomes of a classification request that count as a failure: no
response, a response that is not ok, a body that cannot be read. -/
def PredictOutcome.failed : PredictOutcome → Bool
  | PredictOutcome.ok _ => false
  | _ => true

/-- Whether an output is a classification request. -/
def Output.isPredictRequest : Output → Bool
  | Output.predictRequest _ => true
  | _ => false

/-- The condition under which the timer effect keeps an interval. -/
def timerWanted (s : AppState) : Prop :=
  s.gameState = GameState.playing ∧ 0 < s.timeLeft

instance (s : AppState) : Decidable (timerWanted s) := by
  unfold timerWanted
  infer_instance

/-- The interval is live exactly when the state on the page wants it. -/
def TimerSync (w : World) : Prop :=
  w.timer = true ↔ timerWanted w.app

/-- What a player who wins every round does next: in `playing`, an analysis
whose top prediction is the target with probability `p`; in
`round-complete`, a click on Next Round; otherwise nothing. -/
def winEvents (rnd : Rand) (p : ℚ) (w : World) : List Event :=
  match w.app.gameState with
  | GameState.playing =>
    [Event.analyze,
     Event.response w.inflight.length
       (PredictOutcome.ok (some [{ category := w.app.targetCategory.getD "", probability := p }]))]
  | GameState.roundComplete => [Event.next rnd]
  | _ => []

/-- The game states and round numbers on the page after each move of a
player who wins every round, until `game-over` or until the fuel is spent. -/
def winningTrace : Nat → Rand → ℚ → World → List (GameState × Nat)
  | 0, _, _, _ => []
  | fuel + 1, rnd, p, w =>
    if w.app.gameState = GameState.gameOver then []
    else
      let w1 := run (winEvents rnd p w) w
      (w1.app.gameState, w1.app.round) :: winningTrace fuel rnd p w1

/-- A whole game of a player who wins every round, from a click on Start
Game: the state and round after the click, after its timeout, and after each
move. -/
def winningGame (fuel : Nat) (rnd : Rand) (p : ℚ) (w : World) : List (GameState × Nat) :=
  let w1 := dispatch Event.start w
  let w2 := dispatch (Event.timeout rnd) w1
  (w1.app.gameState, w1.app.round) :: (w2.app.gameState, w2.app.round) ::
    winningTrace fuel rnd p w2

/-- Number of times a trace enters `playing`, `before` being the state the
trace starts from. -/
def playingEntries (before : GameState) : List (GameState × Nat) → Nat
  | [] => 0
  | (g, _) :: rest =>
    (if g = GameState.playing ∧ before ≠ GameState.playing then 1 else 0) +
      playingEntries g rest

/-! ## Concrete inputs -/

/-- The draw `Math.random() = 0`. -/
def rndZero : Rand := ⟨0, le_refl 0, by norm_num⟩

/-- A health response `{"model_loaded": true}` with status 200. -/
def healthyProbe : HealthOutcome :=
  HealthOutcome.response true (some (Json.obj [("model_loaded", Json.bool true)]))

/-- The page once the first probe has answered that the model is loaded. -/
def readyWorld : World := dispatch (Event.healthDone healthyProbe) World.init

/-- A round in progress: Start Game clicked on `readyWorld`, timeout fired. -/
def playingWorld : World := run [Event.start, Event.timeout rndZero] readyWorld

/-- The round of `playingWorld` won with probability 4/5. -/
def wonWorld : World :=
  run [Event.analyze,
    Event.response 0 (PredictOutcome.ok (some [{ category := "cat", probability := 4 / 5 }]))]
    playingWorld

/-- A page in `playing` with a request still in flight that was sent from
free drawing: Free Draw, Analyze, Home, Start Game and its timeout. -/
def staleWorld : World :=
  run [Event.freeDraw, Event.analyze, Event.home, Event.start, Event.timeout rndZero]
    readyWorld

/-- A stroke that inks the pixel (5, 5). -/
def scribble : Overlay := fun x y => if x = 5 ∧ y = 5 then some Color.ink else none

/-- A stroke drawn on the canvas of `playingWorld`, the pointer still down. -/
def scribbledWorld : World :=
  run [Event.pointerDown 5 5, Event.pointerMove 6 6 scribble] playingWorld

/-- The game of `wonWorld` taken to round 5 of 5 by three clicks on Next
Round. -/
def lastRoundWorld : World :=
  run [Event.next rndZero, Event.next rndZero, Event.next rndZero] wonWorld

/-- The game of `lastRoundWorld` ended by one more click on Next Round. -/
def finishedWorld : World := dispatch (Event.next rndZero) lastRoundWorld


/-! ## Auxiliary facts -/

theorem eraseIdx_length_append {α : Type} (l : List α) (a : α) :
    (l ++ [a]).eraseIdx l.length = l := by
  induction l with
  | nil => rfl
  | cons b t ih => simpa [List.eraseIdx] using ih

/-- With the preconditions of `predictDrawing` met, a click on Analyze
followed at once by its response is the continuation applied to the page
with `loading` set and the request logged. -/
theorem analyzeThen_sent (o : PredictOutcome) (w : World) (r : CanvasRef)
    (hready : w.app.apiStatus = ApiStatus.ready) (hcanvas : w.app.canvas = some r) :
    analyzeThen o w =
      predictDrawingResume w.app o
        ((w.setApp (fun s => { s with loading := true })).emit
          (Output.predictRequest (w.dom r))) := by
  simp [analyzeThen, handle, predictDrawing, hready, hcanvas, World.setApp, World.emit,
    eraseIdx_length_append]

/-- The effect of `DrawingCanvas` gives the element the same content whatever
it held before. -/
theorem Canvas.init_eq_fresh (b : Nat) (e : Bool) (c : Canvas) :
    Canvas.init b e c = Canvas.init b e Canvas.fresh := rfl

theorem Canvas.init_width (b : Nat) (e : Bool) (c : Canvas) :
    (Canvas.init b e c).width = 280 := rfl

theorem Canvas.init_height (b : Nat) (e : Bool) (c : Canvas) :
    (Canvas.init b e c).height = 280 := rfl

theorem Canvas.init_pixels (b : Nat) (e : Bool) (c : Canvas) (x y : Nat)
    (hx : x < 280) (hy : y < 280) : (Canvas.init b e c).pixels x y = Color.white := by
  simp [Canvas.init, Canvas.fillRect, Canvas.setWidth, Canvas.setHeight, hx, hy]

/-- Every draw of `Math.random()` selects an index of `CATEGORIES`. -/
theorem randomIndex_lt (rnd : Rand) : randomIndex rnd < CATEGORIES.length := by
  unfold randomIndex
  have h8 : (0 : ℚ) < (CATEGORIES.length : ℚ) := by simp [CATEGORIES]
  rw [Nat.floor_lt (mul_nonneg rnd.nonneg h8.le)]
  calc rnd.val * (CATEGORIES.length : ℚ) < 1 * (CATEGORIES.length : ℚ) :=
        mul_lt_mul_of_pos_right rnd.lt_one h8
    _ = (CATEGORIES.length : ℚ) := one_mul _

theorem randomCategory_mem (rnd : Rand) :
    ∃ c, CATEGORIES[randomIndex rnd]? = some c ∧ c ∈ CATEGORIES := by
  have h := randomIndex_lt rnd
  exact ⟨CATEGORIES[randomIndex rnd], List.getElem?_eq_getElem h, List.getElem_mem h⟩

/-! ## Rounding error of double arithmetic -/

/-- Rounding to an integer moves a number by at most one half. -/
theorem roundHalfEven_err (q : ℚ) : |(roundHalfEven q : ℚ) - q| ≤ 1 / 2 := by
  have h1 := Int.floor_le q
  have h2 := Int.lt_floor_add_one q
  unfold roundHalfEven
  split
  · rw [abs_le]; constructor <;> linarith
  · split
    · rw [abs_le]; push_cast; constructor <;> linarith
    · have heq : q - ⌊q⌋ = 1 / 2 := le_antisymm (not_lt.mp ‹_›) (not_lt.mp ‹_›)
      split
      · rw [abs_le]; constructor <;> linarith
      · rw [abs_le]; push_cast; constructor <;> linarith

/-- The spacing of the doubles is positive. -/
theorem ulp_pos (x : ℚ) : 0 < ulp x := by
  unfold ulp
  positivity

/-- Rounding to a double moves a number by at most half the spacing. -/
theorem toDouble_err_ulp (x : ℚ) : |toDouble x - x| ≤ ulp x / 2 := by
  have hu := ulp_pos x
  have h := roundHalfEven_err (x / ulp x)
  have heq : toDouble x - x = ((roundHalfEven (x / ulp x) : ℚ) - x / ulp x) * ulp x := by
    unfold toDouble
    field_simp
  rw [heq, abs_mul, abs_of_pos hu]
  calc |(roundHalfEven (x / ulp x) : ℚ) - x / ulp x| * ulp x ≤ 1 / 2 * ulp x :=
        mul_le_mul_of_nonneg_right h hu.le
    _ = ulp x / 2 := by ring

/-- Half the spacing, as a power of two. -/
theorem half_ulp (x : ℚ) : ulp x / 2 = 2 ^ (binade x - 53) := by
  unfold ulp
  rw [show binade x - 52 = (binade x - 53) + 1 by ring, zpow_add_one₀ (by norm_num)]
  ring

/-- Zero is a double. -/
theorem toDouble_zero : toDouble 0 = 0 := by
  simp [toDouble, roundHalfEven]

/-- In the normal range the rounding error is at most `2 ^ -53` of the value. -/
theorem toDouble_err_normal (x : ℚ) (h : (2 : ℚ) ^ (-1022 : ℤ) ≤ |x|) :
    |toDouble x - x| ≤ 2 ^ (-53 : ℤ) * |x| := by
  have hpos : 0 < |x| := lt_of_lt_of_le (by positivity) h
  have hlog : (-1022 : ℤ) ≤ Int.log 2 |x| := by
    rw [← Int.zpow_le_iff_le_log one_lt_two hpos]
    exact_mod_cast h
  have hb : binade x = Int.log 2 |x| := max_eq_left hlog
  have hle : (2 : ℚ) ^ Int.log 2 |x| ≤ |x| := by
    have := Int.zpow_log_le_self (b := 2) (r := |x|) one_lt_two hpos
    exact_mod_cast this
  calc |toDouble x - x| ≤ ulp x / 2 := toDouble_err_ulp x
    _ = 2 ^ (Int.log 2 |x| - 53) := by rw [half_ulp, hb]
    _ = 2 ^ (-53 : ℤ) * 2 ^ Int.log 2 |x| := by
        rw [sub_eq_add_neg, zpow_add₀ (by norm_num)]
        ring
    _ ≤ 2 ^ (-53 : ℤ) * |x| := mul_le_mul_of_nonneg_left hle (by positivity)

/-- Everywhere the error is at most `2 ^ -53` of the value plus half the
spacing of the subnormal numbers. -/
theorem toDouble_err (x : ℚ) :
    |toDouble x - x| ≤ 2 ^ (-53 : ℤ) * |x| + 2 ^ (-1075 : ℤ) := by
  by_cases h : (2 : ℚ) ^ (-1022 : ℤ) ≤ |x|
  · have := toDouble_err_normal x h
    have : (0 : ℚ) < 2 ^ (-1075 : ℤ) := by positivity
    linarith
  · by_cases hx : x = 0
    · subst hx
      rw [toDouble_zero]
      simp
      positivity
    · have hpos : 0 < |x| := abs_pos.mpr hx
      have hlog : Int.log 2 |x| < (-1022 : ℤ) := by
        by_contra hcon
        rw [not_lt, ← Int.zpow_le_iff_le_log one_lt_two hpos] at hcon
        exact h (by exact_mod_cast hcon)
      have hb : binade x = -1022 := max_eq_right hlog.le
      have h0 : (0 : ℚ) ≤ 2 ^ (-53 : ℤ) * |x| := by positivity
      calc |toDouble x - x| ≤ ulp x / 2 := toDouble_err_ulp x
        _ = 2 ^ (-1075 : ℤ) := by rw [half_ulp, hb]; norm_num
        _ ≤ 2 ^ (-53 : ℤ) * |x| + 2 ^ (-1075 : ℤ) := by linarith
/-- An integer rounds to itself. -/
theorem roundHalfEven_intCast (n : ℤ) : roundHalfEven (n : ℚ) = n := by
  simp [roundHalfEven]

/-- The negative of a power of two in the normal range is a double. -/
theorem toDouble_neg_zpow (k : ℤ) (hk : -1022 ≤ k) :
    toDouble (-((2 : ℚ) ^ k)) = -((2 : ℚ) ^ k) := by
  have hlog : Int.log 2 ((2 : ℚ) ^ k) = k := by
    have := Int.log_zpow (R := ℚ) (b := 2) one_lt_two k
    simpa using this
  have hb : binade (-((2 : ℚ) ^ k)) = k := by
    unfold binade
    rw [abs_neg, abs_of_pos (by positivity), hlog]
    exact max_eq_left hk
  have hq : -((2 : ℚ) ^ k) / 2 ^ (k - 52) = ((-(2 ^ 52) : ℤ) : ℚ) := by
    rw [zpow_sub₀ (by norm_num : (2 : ℚ) ≠ 0)]
    have h2 : (2 : ℚ) ^ k ≠ 0 := by positivity
    field_simp
    ring
  unfold toDouble ulp
  rw [hb, hq, roundHalfEven_intCast]
  rw [zpow_sub₀ (by norm_num : (2 : ℚ) ≠ 0)]
  push_cast
  field_simp
  norm_num
  ring

/-- The quotient `280 / n` for a side of at most `2 ^ 32` pixels, as a double:
within `2 ^ -53` of the quotient, and in the normal range. -/
theorem fdiv_side (n : ℚ) (h1 : 1 ≤ n) (h32 : n ≤ 2 ^ 32) :
    n * fdiv 280 n ≤ 280 * (1 + 2 ^ (-53 : ℤ)) ∧ (2 : ℚ) ^ (-1022 : ℤ) ≤ fdiv 280 n := by
  have hn : 0 < n := lt_of_lt_of_le one_pos h1
  have hq : (280 : ℚ) / 2 ^ 32 ≤ 280 / n := div_le_div_of_nonneg_left (by norm_num) hn h32
  have hqpos : (0 : ℚ) < 280 / n := by positivity
  have hsmall : (2 : ℚ) ^ (-1022 : ℤ) ≤ (2 : ℚ) ^ (-30 : ℤ) :=
    zpow_le_zpow_right₀ (by norm_num) (by norm_num)
  have h30 : (2 : ℚ) ^ (-30 : ℤ) = 1 / 1073741824 := by norm_num
  have hnorm : (2 : ℚ) ^ (-1022 : ℤ) ≤ |280 / n| := by
    rw [abs_of_pos hqpos]
    have : (1 : ℚ) / 1073741824 ≤ 280 / 2 ^ 32 := by norm_num
    linarith
  have herr := toDouble_err_normal (280 / n) hnorm
  rw [abs_of_pos hqpos, abs_le] at herr
  have hu : (2 : ℚ) ^ (-53 : ℤ) = 1 / 9007199254740992 := by norm_num
  have hmul : n * (280 / n) = 280 := by field_simp
  unfold fdiv
  constructor
  · have : n * toDouble (280 / n) ≤ n * (280 / n + 2 ^ (-53 : ℤ) * (280 / n)) :=
      mul_le_mul_of_nonneg_left (by linarith [herr.2]) hn.le
    calc n * toDouble (280 / n) ≤ n * (280 / n + 2 ^ (-53 : ℤ) * (280 / n)) := this
      _ = n * (280 / n) * (1 + 2 ^ (-53 : ℤ)) := by ring
      _ = 280 * (1 + 2 ^ (-53 : ℤ)) := by rw [hmul]
  · have hlow : 280 / n - 2 ^ (-53 : ℤ) * (280 / n) ≤ toDouble (280 / n) := by
      linarith [herr.1]
    have hhalf : (280 / n) / 2 ≤ 280 / n - 2 ^ (-53 : ℤ) * (280 / n) := by
      rw [hu]
      linarith
    have : (1 : ℚ) / 1073741824 ≤ (280 / 2 ^ 32) / 2 := by norm_num
    linarith

/-- One side of the rectangle and its offset, from a scale in the normal range
under which the side is at most `280 (1 + 2 ^ -53)`. -/
theorem side_bounds (n scale : ℚ) (h1 : 1 ≤ n) (hs : (2 : ℚ) ^ (-1022 : ℤ) ≤ scale)
    (hP : n * scale ≤ 280 * (1 + 2 ^ (-53 : ℤ))) :
    0 ≤ fmul n scale ∧
    fmul n scale ≤ 280 + 2 ^ (-43 : ℤ) ∧
    -(2 : ℚ) ^ (-43 : ℤ) ≤ fdiv (fsub 280 (fmul n scale)) 2 ∧
    fdiv (fsub 280 (fmul n scale)) 2 + fmul n scale ≤ 280 + 2 ^ (-43 : ℤ) ∧
    |fdiv (fsub 280 (fmul n scale)) 2
      - (280 - fdiv (fsub 280 (fmul n scale)) 2 - fmul n scale)| ≤ 2 ^ (-43 : ℤ) ∧
    |fmul n scale - n * scale| ≤ 2 ^ (-53 : ℤ) * (n * scale) := by
  have hspos : 0 < scale := lt_of_lt_of_le (by positivity) hs
  have hPpos : 0 < n * scale := by positivity
  have hPs : scale ≤ n * scale := by nlinarith
  have hu : (2 : ℚ) ^ (-53 : ℤ) = 1 / 9007199254740992 := by norm_num
  have h43 : (2 : ℚ) ^ (-43 : ℤ) = 1 / 8796093022208 := by norm_num
  have ht : (2 : ℚ) ^ (-1075 : ℤ) ≤ 2 ^ (-53 : ℤ) :=
    zpow_le_zpow_right₀ (by norm_num) (by norm_num)
  have htpos : (0 : ℚ) < 2 ^ (-1075 : ℤ) := by positivity
  -- the side
  have hside := toDouble_err_normal (n * scale) (by rw [abs_of_pos hPpos]; linarith)
  rw [abs_of_pos hPpos] at hside
  have hside2 := abs_le.mp hside
  have hPu : 2 ^ (-53 : ℤ) * (n * scale) ≤ 2 ^ (-53 : ℤ) * (280 * (1 + 2 ^ (-53 : ℤ))) :=
    mul_le_mul_of_nonneg_left hP (by positivity)
  rw [hu] at hside2 hPu hP ht
  have hside_lo : 0 ≤ toDouble (n * scale) := by linarith [hside2.1]
  have hside_hi : toDouble (n * scale) ≤ 280 + 1 / 8796093022208 := by
    linarith [hside2.2]
  -- the difference 280 - side
  have hdabs : |280 - toDouble (n * scale)| ≤ 281 := by
    rw [abs_le]
    constructor <;> linarith
  have hd1 : 2 ^ (-53 : ℤ) * |280 - toDouble (n * scale)| ≤ 2 ^ (-53 : ℤ) * 281 :=
    mul_le_mul_of_nonneg_left hdabs (by positivity)
  have hd2 := abs_le.mp (toDouble_err (280 - toDouble (n * scale)))
  have hdl := abs_le.mp hdabs
  rw [hu] at hd1 hd2
  -- half of it
  have hsdabs : |toDouble (280 - toDouble (n * scale)) / 2| ≤ 141 := by
    rw [abs_le]
    constructor <;> linarith [hd2.1, hd2.2, hdl.1, hdl.2]
  have ho1 : 2 ^ (-53 : ℤ) * |toDouble (280 - toDouble (n * scale)) / 2|
      ≤ 2 ^ (-53 : ℤ) * 141 := mul_le_mul_of_nonneg_left hsdabs (by positivity)
  have ho2 := abs_le.mp (toDouble_err (toDouble (280 - toDouble (n * scale)) / 2))
  rw [hu] at ho1 ho2
  unfold fdiv fsub fmul
  rw [h43]
  refine ⟨hside_lo, hside_hi, ?_, ?_, ?_, hside⟩
  · linarith [hd2.1, hd2.2, ho2.1, ho2.2]
  · linarith [hd2.1, hd2.2, ho2.1, ho2.2]
  · rw [abs_le]
    constructor <;> linarith [hd2.1, hd2.2, ho2.1, ho2.2]

/-- The rectangle of source lines 244-248 on a 280 x 280 canvas, for sides of
at most `2 ^ 32` pixels: every bound holds within `2 ^ -43`. -/
theorem imageRect_within_rounding (W H : ℚ) (hW1 : 1 ≤ W) (hW : W ≤ 2 ^ 32) (hH1 : 1 ≤ H)
    (hH : H ≤ 2 ^ 32) :
    (imageRect 280 280 W H).width ≤ 280 + 2 ^ (-43 : ℤ) ∧
    (imageRect 280 280 W H).height ≤ 280 + 2 ^ (-43 : ℤ) ∧
    -(2 : ℚ) ^ (-43 : ℤ) ≤ (imageRect 280 280 W H).x ∧
    -(2 : ℚ) ^ (-43 : ℤ) ≤ (imageRect 280 280 W H).y ∧
    (imageRect 280 280 W H).x + (imageRect 280 280 W H).width ≤ 280 + 2 ^ (-43 : ℤ) ∧
    (imageRect 280 280 W H).y + (imageRect 280 280 W H).height ≤ 280 + 2 ^ (-43 : ℤ) ∧
    |(imageRect 280 280 W H).width * H - (imageRect 280 280 W H).height * W|
      ≤ 2 ^ (-43 : ℤ) * min W H ∧
    |(imageRect 280 280 W H).x
      - (280 - (imageRect 280 280 W H).x - (imageRect 280 280 W H).width)| ≤ 2 ^ (-43 : ℤ) ∧
    |(imageRect 280 280 W H).y
      - (280 - (imageRect 280 280 W H).y - (imageRect 280 280 W H).height)|
      ≤ 2 ^ (-43 : ℤ) := by
  have hWpos : 0 < W := lt_of_lt_of_le one_pos hW1
  have hHpos : 0 < H := lt_of_lt_of_le one_pos hH1
  obtain ⟨hsw, hswn⟩ := fdiv_side W hW1 hW
  obtain ⟨hsh, hshn⟩ := fdiv_side H hH1 hH
  have hscale : (2 : ℚ) ^ (-1022 : ℤ) ≤ min (fdiv 280 W) (fdiv 280 H) := le_min hswn hshn
  have hPW : W * min (fdiv 280 W) (fdiv 280 H) ≤ 280 * (1 + 2 ^ (-53 : ℤ)) :=
    le_trans (mul_le_mul_of_nonneg_left (min_le_left _ _) hWpos.le) hsw
  have hPH : H * min (fdiv 280 W) (fdiv 280 H) ≤ 280 * (1 + 2 ^ (-53 : ℤ)) :=
    le_trans (mul_le_mul_of_nonneg_left (min_le_right _ _) hHpos.le) hsh
  obtain ⟨_, hw1, hw2, hw3, hw4, hw5⟩ := side_bounds W _ hW1 hscale hPW
  obtain ⟨_, hh1, hh2, hh3, hh4, hh5⟩ := side_bounds H _ hH1 hscale hPH
  refine ⟨hw1, hh1, hw2, hh2, hw3, hh3, ?_, hw4, hh4⟩
  simp only [imageRect]
  generalize min (fdiv 280 W) (fdiv 280 H) = s at *
  have hspos : 0 < s := lt_of_lt_of_le (by positivity) hscale
  have hu : (2 : ℚ) ^ (-53 : ℤ) = 1 / 9007199254740992 := by norm_num
  have h43 : (2 : ℚ) ^ (-43 : ℤ) = 1 / 8796093022208 := by norm_num
  rw [hu] at hw5 hh5 hPW hPH
  rw [h43]
  have a5 := abs_le.mp hw5
  have b5 := abs_le.mp hh5
  have e1 : (fmul W s - W * s) * H ≤ 1 / 9007199254740992 * (W * s) * H :=
    mul_le_mul_of_nonneg_right a5.2 hHpos.le
  have e2 : -(1 / 9007199254740992 * (W * s)) * H ≤ (fmul W s - W * s) * H :=
    mul_le_mul_of_nonneg_right a5.1 hHpos.le
  have e3 : (fmul H s - H * s) * W ≤ 1 / 9007199254740992 * (H * s) * W :=
    mul_le_mul_of_nonneg_right b5.2 hWpos.le
  have e4 : -(1 / 9007199254740992 * (H * s)) * W ≤ (fmul H s - H * s) * W :=
    mul_le_mul_of_nonneg_right b5.1 hWpos.le
  have pH : W * s * H ≤ 280 * (1 + 1 / 9007199254740992) * H :=
    mul_le_mul_of_nonneg_right hPW hHpos.le
  have pW : H * s * W ≤ 280 * (1 + 1 / 9007199254740992) * W :=
    mul_le_mul_of_nonneg_right hPH hWpos.le
  have hdiff : fmul W s * H - fmul H s * W
      = (fmul W s - W * s) * H - (fmul H s - H * s) * W := by ring
  rw [hdiff, abs_le]
  rcases le_total W H with hle | hle
  · rw [min_eq_left hle]
    constructor <;> linarith
  · rw [min_eq_right hle]
    constructor <;> linarith

/-! ## Claims -/

/-- C1, counterexample: `staleWorld` is in `playing` with target "cat" and
score 0; the response that arrives there is a success whose top prediction
is "cat", and it is stored, but the request had been sent from free drawing:
the score stays 0 and the state stays `playing`. -/
theorem stale_analysis_is_not_scored :
    staleWorld.app.gameState = GameState.playing ∧
    staleWorld.app.targetCategory = some "cat" ∧
    staleWorld.app.score = 0 ∧
    (dispatch (Event.response 0
      (PredictOutcome.ok (some [{ category := "cat", probability := 4 / 5 }])))
      staleWorld).app.prediction = some { category := "cat", probability := 4 / 5 } ∧
    (dispatch (Event.response 0
      (PredictOutcome.ok (some [{ category := "cat", probability := 4 / 5 }])))
      staleWorld).app.score = 0 ∧
    (dispatch (Event.response 0
      (PredictOutcome.ok (some [{ category := "cat", probability := 4 / 5 }])))
      staleWorld).app.gameState = GameState.playing := by
  decide!

/-- C1, amended: a successful analysis with a non-empty prediction list
stores the top prediction and is judged with the `gameState` and
`targetCategory` of the render `snap` that sent the request.  When that
render was in `playing` and the top category is its target, the state
becomes `round-complete` and, for a probability in `[0, 1]`, the score of the
page grows by exactly `Math.round(probability * 100)` as doubles compute it;
otherwise score and state stay as they are.  For a click on Analyze on a
page in `playing` whose response arrives before any other event, `snap` is
the page: the top prediction is stored, a match scores and completes the
round, a mismatch changes neither score nor state. -/
theorem analysis_judged_by_sending_render (snap : AppState) (w : World) (top : Prediction)
    (rest : List Prediction) :
    (predictDrawingResume snap (PredictOutcome.ok (some (top :: rest))) w).app.prediction
      = some top ∧
    (snap.gameState = GameState.playing → some top.category = snap.targetCategory →
      (predictDrawingResume snap (PredictOutcome.ok (some (top :: rest))) w).app.gameState
        = GameState.roundComplete ∧
      (0 ≤ top.probability → top.probability ≤ 1 →
        (predictDrawingResume snap (PredictOutcome.ok (some (top :: rest))) w).app.score
          = w.app.score + mathRound (fmul (toDouble top.probability) 100))) ∧
    ((snap.gameState ≠ GameState.playing ∨ some top.category ≠ snap.targetCategory) →
      (predictDrawingResume snap (PredictOutcome.ok (some (top :: rest))) w).app.score
        = w.app.score ∧
      (predictDrawingResume snap (PredictOutcome.ok (some (top :: rest))) w).app.gameState
        = w.app.gameState) ∧
    (∀ r : CanvasRef, w.app.gameState = GameState.playing →
      w.app.apiStatus = ApiStatus.ready → w.app.canvas = some r →
      (analyzeThen (PredictOutcome.ok (some (top :: rest))) w).app.prediction = some top ∧
      (some top.category = w.app.targetCategory →
        (analyzeThen (PredictOutcome.ok (some (top :: rest))) w).app.gameState
          = GameState.roundComplete ∧
        (0 ≤ top.probability → top.probability ≤ 1 →
          (analyzeThen (PredictOutcome.ok (some (top :: rest))) w).app.score
            = w.app.score + mathRound (fmul (toDouble top.probability) 100))) ∧
      (some top.category ≠ w.app.targetCategory →
        (analyzeThen (PredictOutcome.ok (some (top :: rest))) w).app.score = w.app.score ∧
        (analyzeThen (PredictOutcome.ok (some (top :: rest))) w).app.gameState
          = w.app.gameState)) := by
  refine ⟨?_, ?_, ?_, ?_⟩
  · by_cases h : snap.gameState = GameState.playing ∧ some top.category = snap.targetCategory
    · simp [predictDrawingResume, World.setApp, h.1, h.2]
    · simp only [predictDrawingResume, if_neg h]
      rfl
  · intro hplay hmatch
    simp [predictDrawingResume, World.setApp, hplay, hmatch]
  · intro hno
    have h : ¬ (snap.gameState = GameState.playing ∧ some top.category = snap.targetCategory) :=
      fun hh => hno.elim (fun h1 => h1 hh.1) (fun h2 => h2 hh.2)
    simp only [predictDrawingResume, if_neg h]
    exact ⟨rfl, rfl⟩
  · intro r hplay hready hcanvas
    rw [analyzeThen_sent _ w r hready hcanvas]
    refine ⟨?_, ?_, ?_⟩
    · by_cases h : some top.category = w.app.targetCategory <;>
        simp [predictDrawingResume, World.setApp, World.emit, hplay, h]
    · intro h
      simp [predictDrawingResume, World.setApp, World.emit, hplay, h]
    · intro h
      simp [predictDrawingResume, World.setApp, World.emit, hplay, h]

/-- C1 amended, at concrete inputs: the round of `playingWorld`, whose target
is "cat", analysed as "cat" with probability 4/5, scores 80 and is complete;
and the doubles 0.155 and 0.285 score 16 and 28. -/
theorem analysis_judged_by_sending_render_witness :
    playingWorld.app.gameState = GameState.playing ∧
    some "cat" = playingWorld.app.targetCategory ∧
    (predictDrawingResume playingWorld.app
      (PredictOutcome.ok (some [{ category := "cat", probability := 4 / 5 }]))
      playingWorld).app.gameState = GameState.roundComplete ∧
    (predictDrawingResume playingWorld.app
      (PredictOutcome.ok (some [{ category := "cat", probability := 4 / 5 }]))
      playingWorld).app.score = 0 + mathRound (fmul (toDouble (4 / 5)) 100) ∧
    mathRound (fmul (toDouble (4 / 5)) 100) = 80 ∧
    mathRound (fmul (toDouble (155 / 1000)) 100) = 16 ∧
    mathRound (fmul (toDouble (285 / 1000)) 100) = 28 :=
  have hp : playingWorld.app.gameState = GameState.playing := by decide!
  have ht : some "cat" = playingWorld.app.targetCategory := by decide!
  have h := (analysis_judged_by_sending_render playingWorld.app playingWorld
    { category := "cat", probability := 4 / 5 } []).2.1 hp ht
  ⟨hp, ht, h.1, h.2 (by norm_num) (by norm_num), by decide!, by decide!, by decide!⟩

/-- C4: with `round >= totalRounds`, in particular in `round-complete` at
round 5 of 5, a click on Next Round sets the state to `game-over` and
changes nothing else: score, round and target category stay as they were. -/
theorem nextRound_last_round_ends_game (w : World) (rnd : Rand)
    (hlast : w.app.totalRounds ≤ w.app.round) :
    handle (Event.next rnd) w
        = w.setApp (fun s => { s with gameState := GameState.gameOver }) ∧
    (handle (Event.next rnd) w).app.gameState = GameState.gameOver ∧
    (handle (Event.next rnd) w).app.score = w.app.score ∧
    (handle (Event.next rnd) w).app.round = w.app.round ∧
    (handle (Event.next rnd) w).app.targetCategory = w.app.targetCategory := by
  have h : handle (Event.next rnd) w
      = w.setApp (fun s => { s with gameState := GameState.gameOver }) := by
    simp [handle, nextRound, hlast]
  rw [h]
  exact ⟨rfl, rfl, rfl, rfl, rfl⟩

/-- C4, at a concrete input: `lastRoundWorld` is in `round-complete` at round
5 of 5 with score 80; Next Round ends the game with the score kept. -/
theorem nextRound_last_round_ends_game_witness :
    lastRoundWorld.app.gameState = GameState.roundComplete ∧
    lastRoundWorld.app.round = 5 ∧ lastRoundWorld.app.totalRounds = 5 ∧
    (handle (Event.next rndZero) lastRoundWorld).app.gameState = GameState.gameOver ∧
    (handle (Event.next rndZero) lastRoundWorld).app.score = 80 :=
  have h := nextRound_last_round_ends_game lastRoundWorld rndZero (by decide!)
  ⟨by decide!, by decide!, by decide!, h.2.1, h.2.2.1.trans (by decide!)⟩

/-- C7: when `predictDrawing` runs while the API is not ready or without a
canvas it only raises an alert: no request is logged or queued and no state
cell changes; and when a request was sent and fails (no response, a status
that is not ok, an unreadable body), the continuation leaves state, score,
round, time left, target category and stored prediction as they are. -/
theorem failed_analyze_changes_nothing (snap : AppState) (w : World) :
    ((snap.apiStatus ≠ ApiStatus.ready ∨ snap.canvas = none) →
      (∃ msg, predictDrawing snap w = w.emit (Output.alert msg)) ∧
      (predictDrawing snap w).inflight = w.inflight ∧
      (predictDrawing snap w).log.filter Output.isPredictRequest
          = w.log.filter Output.isPredictRequest ∧
      (predictDrawing snap w).app = w.app) ∧
    (∀ o : PredictOutcome, o.failed = true →
      (predictDrawingResume snap o w).app.gameState = w.app.gameState ∧
      (predictDrawingResume snap o w).app.score = w.app.score ∧
      (predictDrawingResume snap o w).app.round = w.app.round ∧
      (predictDrawingResume snap o w).app.timeLeft = w.app.timeLeft ∧
      (predictDrawingResume snap o w).app.targetCategory = w.app.targetCategory ∧
      (predictDrawingResume snap o w).app.prediction = w.app.prediction) := by
  constructor
  · intro h
    by_cases hready : snap.apiStatus = ApiStatus.ready
    · have hcanvas : snap.canvas = none := h.resolve_left (fun hn => hn hready)
      refine ⟨⟨"Canvas not available", ?_⟩, ?_, ?_, ?_⟩ <;>
        simp [predictDrawing, hready, hcanvas, World.emit, Output.isPredictRequest]
    · refine ⟨⟨"API is not ready. Please make sure the backend is running.", ?_⟩,
        ?_, ?_, ?_⟩ <;>
        simp [predictDrawing, hready, World.emit, Output.isPredictRequest]
  · intro o ho
    cases o with
    | ok p => simp [PredictOutcome.failed] at ho
    | transportFailure => simp [predictDrawingResume, World.setApp, World.emit]
    | httpError st => simp [predictDrawingResume, World.setApp, World.emit]
    | malformed => simp [predictDrawingResume, World.setApp, World.emit]

/-- C7, at concrete inputs: on the first page (API still `checking`) Analyze
sends nothing, and in `playingWorld` a response with status 500 leaves the
round as it was. -/
theorem failed_analyze_changes_nothing_witness :
    (predictDrawing World.init.app World.init).inflight = [] ∧
    (predictDrawing World.init.app World.init).app = World.init.app ∧
    (predictDrawingResume playingWorld.app (PredictOutcome.httpError 500)
      playingWorld).app.gameState = GameState.playing ∧
    (predictDrawingResume playingWorld.app (PredictOutcome.httpError 500)
      playingWorld).app.score = 0 :=
  have h := failed_analyze_changes_nothing World.init.app World.init
  have h1 := h.1 (Or.inl (by decide))
  have h2 := (failed_analyze_changes_nothing playingWorld.app playingWorld).2
    (PredictOutcome.httpError 500) rfl
  ⟨h1.2.1, h1.2.2.2, h2.1.trans (by decide!), h2.2.1.trans (by decide!)⟩

/-- C8, counterexample: a successful health response whose body lacks the
field `model_loaded` sets the status to `no-model`, not to `error`. -/
theorem health_missing_field_is_noModel :
    (checkApiHealth (HealthOutcome.response true (some (Json.obj []))) World.init).app.apiStatus
        = ApiStatus.noModel ∧
    (checkApiHealth (HealthOutcome.response true (some (Json.obj []))) World.init).app.apiStatus
        ≠ ApiStatus.error := by
  decide

/-- C8, amended: a successful response whose body is an object with a truthy
`model_loaded` (such as `true`) sets the status to `ready`; a successful
response whose body is any JSON value but `null` with `model_loaded` falsy
(such as `false`) or missing sets it to `no-model`; a failed request and a
response whose body is not JSON or is `null` set it to `error`. -/
theorem checkApiHealth_status (w : World) :
    (∀ fields v, lookupField "model_loaded" fields = some v → v.truthy = true →
      (checkApiHealth (HealthOutcome.response true (some (Json.obj fields))) w).app.apiStatus
        = ApiStatus.ready) ∧
    (∀ fields v, lookupField "model_loaded" fields = some v → v.truthy = false →
      (checkApiHealth (HealthOutcome.response true (some (Json.obj fields))) w).app.apiStatus
        = ApiStatus.noModel) ∧
    (∀ data, data ≠ Json.null →
      (∀ fields, data = Json.obj fields → lookupField "model_loaded" fields = none) →
      (checkApiHealth (HealthOutcome.response true (some data)) w).app.apiStatus
        = ApiStatus.noModel) ∧
    (checkApiHealth HealthOutcome.transportFailure w).app.apiStatus = ApiStatus.error ∧
    (∀ ok, (checkApiHealth (HealthOutcome.response ok none) w).app.apiStatus
        = ApiStatus.error) ∧
    (∀ ok, (checkApiHealth (HealthOutcome.response ok (some Json.null)) w).app.apiStatus
        = ApiStatus.error) := by
  refine ⟨?_, ?_, ?_, ?_, ?_, ?_⟩
  · intro fields v hv ht
    simp [checkApiHealth, modelLoaded, hv, ht, World.setApp]
  · intro fields v hv ht
    simp [checkApiHealth, modelLoaded, hv, ht, World.setApp]
  · intro data hnull hmiss
    cases data with
    | null => exact absurd rfl hnull
    | obj fields => simp [checkApiHealth, modelLoaded, hmiss fields rfl, World.setApp]
    | bool b => simp [checkApiHealth, modelLoaded, World.setApp]
    | num q => simp [checkApiHealth, modelLoaded, World.setApp]
    | str s => simp [checkApiHealth, modelLoaded, World.setApp]
    | arr items => simp [checkApiHealth, modelLoaded, World.setApp]
  · simp [checkApiHealth, World.setApp, World.emit]
  · intro ok
    simp [checkApiHealth, World.setApp, World.emit]
  · intro ok
    simp [checkApiHealth, modelLoaded, World.setApp, World.emit]

/-- C8 amended, at concrete inputs: `{"model_loaded": true}` gives `ready`
and `{"model_loaded": false}` gives `no-model`. -/
theorem checkApiHealth_status_witness :
    (checkApiHealth (HealthOutcome.response true
      (some (Json.obj [("model_loaded", Json.bool true)]))) World.init).app.apiStatus
        = ApiStatus.ready ∧
    (checkApiHealth (HealthOutcome.response true
      (some (Json.obj [("model_loaded", Json.bool false)]))) World.init).app.apiStatus
        = ApiStatus.noModel :=
  ⟨(checkApiHealth_status World.init).1 [("model_loaded", Json.bool true)] (Json.bool true)
      (by simp [lookupField]) rfl,
   (checkApiHealth_status World.init).2.1 [("model_loaded", Json.bool false)]
      (Json.bool false) (by simp [lookupField]) rfl⟩

/-- A remark on C8: `checkApiHealth` does not read `response.ok`; a response
with an error status and a body saying the model is loaded sets `ready`. -/
theorem health_ignores_status :
    (checkApiHealth (HealthOutcome.response false
      (some (Json.obj [("model_loaded", Json.bool true)]))) World.init).app.apiStatus
        = ApiStatus.ready := by
  decide


/-! ## Rendering lemmas -/

theorem canvasShown_congr {s t : AppState} (ha : s.apiStatus = t.apiStatus)
    (hg : s.gameState = t.gameState) : canvasShown s = canvasShown t := by
  simp [canvasShown, ha, hg]

theorem timerCommit_same (prev snap : AppState) (w : World)
    (hg : snap.gameState = prev.gameState) (ht : snap.timeLeft = prev.timeLeft) :
    timerCommit prev snap w = w := by
  simp [timerCommit, hg, ht]

theorem DrawingCanvas.commit_rerun (prev snap : AppState) (w : World) (r : CanvasRef)
    (hshown : canvasShown snap = true) (hmounted : w.mounted = some r)
    (hne : snap.brushSize ≠ prev.brushSize ∨ snap.isErasing ≠ prev.isErasing) :
    DrawingCanvas.commit prev snap w = DrawingCanvas.effect snap w := by
  have hnot : ¬ (snap.brushSize = prev.brushSize ∧ snap.isErasing = prev.isErasing) := by
    rintro ⟨h1, h2⟩
    exact hne.elim (fun h => h h1) (fun h => h h2)
  simp only [DrawingCanvas.commit, hshown, hmounted, if_true, if_neg hnot]

theorem DrawingCanvas.commit_keep (prev snap : AppState) (w : World) (r : CanvasRef)
    (hshown : canvasShown snap = true) (hmounted : w.mounted = some r)
    (hb : snap.brushSize = prev.brushSize) (he : snap.isErasing = prev.isErasing) :
    DrawingCanvas.commit prev snap w = w := by
  simp only [DrawingCanvas.commit, hshown, hmounted, if_true, hb, he, and_self]

theorem DrawingCanvas.effect_mounted (snap : AppState) (w : World) (r : CanvasRef)
    (hmounted : w.mounted = some r) :
    DrawingCanvas.effect snap w =
      (w.mutate r (Canvas.init snap.brushSize snap.isErasing)).setApp
        (fun s => { s with canvas := some r }) := by
  simp only [DrawingCanvas.effect, hmounted]

/-- A render that changes no dependency of an effect runs no effect. -/
theorem renderPass_stable (prev : AppState) (w : World) (r : CanvasRef)
    (hshown : canvasShown w.app = true) (hmounted : w.mounted = some r)
    (hb : w.app.brushSize = prev.brushSize) (he : w.app.isErasing = prev.isErasing)
    (hg : w.app.gameState = prev.gameState) (ht : w.app.timeLeft = prev.timeLeft) :
    renderPass prev w = w := by
  rw [renderPass, DrawingCanvas.commit_keep prev w.app w r hshown hmounted hb he,
    timerCommit_same prev w.app w hg ht]

/-- Committing a render in which `brushSize` or `isErasing` changed, the
canvas staying on the page and the timer dependencies the same, leaves the
mounted element freshly initialised. -/
theorem commit_props_changed (prev : AppState) (w : World) (r : CanvasRef)
    (hshown : canvasShown w.app = true) (hmounted : w.mounted = some r)
    (hne : w.app.brushSize ≠ prev.brushSize ∨ w.app.isErasing ≠ prev.isErasing)
    (hg : w.app.gameState = prev.gameState) (ht : w.app.timeLeft = prev.timeLeft) :
    (commit prev w).dom r = Canvas.init w.app.brushSize w.app.isErasing Canvas.fresh := by
  have h1 : renderPass prev w =
      (w.mutate r (Canvas.init w.app.brushSize w.app.isErasing)).setApp
        (fun s => { s with canvas := some r }) := by
    rw [renderPass, DrawingCanvas.commit_rerun prev w.app w r hshown hmounted hne,
      timerCommit_same prev w.app _ hg ht, DrawingCanvas.effect_mounted _ _ r hmounted]
  have h2 : renderPass w.app (renderPass prev w) = renderPass prev w := by
    rw [h1]
    exact renderPass_stable w.app _ r (by rw [← hshown]; exact canvasShown_congr rfl rfl)
      hmounted rfl rfl rfl rfl
  rw [commit, h2, h1]
  simp [World.setApp, World.mutate, Canvas.init_eq_fresh _ _ (w.dom r)]



/-- C9, counterexample: an image of 1103 x 1103 pixels is given the width
`280 + 2 ^ -44`, more than 280, at `x = -(2 ^ -45)`, left of the bitmap. -/
theorem image_1103_exceeds_canvas :
    (imageRect (Canvas.init 10 false Canvas.fresh).width
      (Canvas.init 10 false Canvas.fresh).height (1103 : Nat) (1103 : Nat)).width
        = 280 + 2 ^ (-44 : ℤ) ∧
    280 < (imageRect (Canvas.init 10 false Canvas.fresh).width
      (Canvas.init 10 false Canvas.fresh).height (1103 : Nat) (1103 : Nat)).width ∧
    (imageRect (Canvas.init 10 false Canvas.fresh).width
      (Canvas.init 10 false Canvas.fresh).height (1103 : Nat) (1103 : Nat)).x
        = -(2 ^ (-45 : ℤ)) ∧
    (imageRect (Canvas.init 10 false Canvas.fresh).width
      (Canvas.init 10 false Canvas.fresh).height (1103 : Nat) (1103 : Nat)).x < 0 := by
  rw [Canvas.init_width, Canvas.init_height]
  simp only [Nat.cast_ofNat]
  have h1 : fmul 1103 (min (fdiv 280 1103) (fdiv 280 1103)) = 280 + 2 ^ (-44 : ℤ) := by
    decide!
  have h2 : (280 : ℚ) - (280 + 2 ^ (-44 : ℤ)) = -((2 : ℚ) ^ (-44 : ℤ)) := by ring
  have h3 : -((2 : ℚ) ^ (-44 : ℤ)) / 2 = -((2 : ℚ) ^ (-45 : ℤ)) := by norm_num
  have hwid : (imageRect 280 280 1103 1103).width = 280 + 2 ^ (-44 : ℤ) := by
    simp only [imageRect]
    exact h1
  have hx : (imageRect 280 280 1103 1103).x = -(2 ^ (-45 : ℤ)) := by
    simp only [imageRect]
    rw [h1]
    unfold fsub fdiv
    rw [h2, toDouble_neg_zpow _ (by norm_num), h3, toDouble_neg_zpow _ (by norm_num)]
  refine ⟨hwid, ?_, hx, ?_⟩
  · rw [hwid]
    norm_num
  · rw [hx]
    norm_num

/-- C9, amended: for an image of positive width and height below `2 ^ 32`
composited onto the canvas as the effect of `DrawingCanvas` leaves it
(280 x 280), the rectangle given to `drawImage`, computed in doubles, meets
every bound of the claim within `2 ^ -43`: width and height are at most
`280 + 2 ^ -43`, x and y at least `-(2 ^ -43)`, x + width and y + height at
most `280 + 2 ^ -43`, `width * h` and `height * w` differ by at most
`2 ^ -43 * min w h`, and x and y differ from the centred offsets by at most
`2 ^ -43`. -/
theorem imageRect_fits_within_rounding (b : Nat) (e : Bool) (c : Canvas) (iw ih : Nat)
    (hw : 0 < iw) (hh : 0 < ih) (hw32 : iw < 2 ^ 32) (hh32 : ih < 2 ^ 32) :
    (imageRect (Canvas.init b e c).width (Canvas.init b e c).height iw ih).width
      ≤ 280 + 2 ^ (-43 : ℤ) ∧
    (imageRect (Canvas.init b e c).width (Canvas.init b e c).height iw ih).height
      ≤ 280 + 2 ^ (-43 : ℤ) ∧
    -(2 : ℚ) ^ (-43 : ℤ)
      ≤ (imageRect (Canvas.init b e c).width (Canvas.init b e c).height iw ih).x ∧
    -(2 : ℚ) ^ (-43 : ℤ)
      ≤ (imageRect (Canvas.init b e c).width (Canvas.init b e c).height iw ih).y ∧
    (imageRect (Canvas.init b e c).width (Canvas.init b e c).height iw ih).x
      + (imageRect (Canvas.init b e c).width (Canvas.init b e c).height iw ih).width
      ≤ 280 + 2 ^ (-43 : ℤ) ∧
    (imageRect (Canvas.init b e c).width (Canvas.init b e c).height iw ih).y
      + (imageRect (Canvas.init b e c).width (Canvas.init b e c).height iw ih).height
      ≤ 280 + 2 ^ (-43 : ℤ) ∧
    |(imageRect (Canvas.init b e c).width (Canvas.init b e c).height iw ih).width * ih
      - (imageRect (Canvas.init b e c).width (Canvas.init b e c).height iw ih).height * iw|
      ≤ 2 ^ (-43 : ℤ) * min (iw : ℚ) (ih : ℚ) ∧
    |(imageRect (Canvas.init b e c).width (Canvas.init b e c).height iw ih).x
      - (280 - (imageRect (Canvas.init b e c).width (Canvas.init b e c).height iw ih).x
        - (imageRect (Canvas.init b e c).width (Canvas.init b e c).height iw ih).width)|
      ≤ 2 ^ (-43 : ℤ) ∧
    |(imageRect (Canvas.init b e c).width (Canvas.init b e c).height iw ih).y
      - (280 - (imageRect (Canvas.init b e c).width (Canvas.init b e c).height iw ih).y
        - (imageRect (Canvas.init b e c).width (Canvas.init b e c).height iw ih).height)|
      ≤ 2 ^ (-43 : ℤ) := by
  have hw1 : (1 : ℚ) ≤ (iw : ℚ) := by exact_mod_cast hw
  have hh1 : (1 : ℚ) ≤ (ih : ℚ) := by exact_mod_cast hh
  have hw2 : (iw : ℚ) ≤ 2 ^ 32 := by exact_mod_cast hw32.le
  have hh2 : (ih : ℚ) ≤ 2 ^ 32 := by exact_mod_cast hh32.le
  rw [Canvas.init_width, Canvas.init_height]
  simp only [Nat.cast_ofNat]
  exact imageRect_within_rounding iw ih hw1 hw2 hh1 hh2

/-- C9 amended, at concrete inputs: the width `280 + 2 ^ -44` of the 1103 x
1103 image is within the bound, and a 560 x 280 image is drawn 280 x 140 at
(0, 70) exactly. -/
theorem imageRect_fits_within_rounding_witness :
    (imageRect (Canvas.init 10 false Canvas.fresh).width
      (Canvas.init 10 false Canvas.fresh).height (1103 : Nat) (1103 : Nat)).width
        ≤ 280 + 2 ^ (-43 : ℤ) ∧
    (imageRect 280 280 560 280).width = 280 ∧
    (imageRect 280 280 560 280).height = 140 ∧
    (imageRect 280 280 560 280).x = 0 ∧
    (imageRect 280 280 560 280).y = 70 :=
  ⟨(imageRect_fits_within_rounding 10 false Canvas.fresh 1103 1103 (by decide) (by decide)
      (by decide) (by decide)).1,
    by decide!, by decide!, by decide!, by decide!⟩

/-- C10: while the canvas is on the page, moving the slider to another width
or switching between draw and erase runs the canvas effect again, whatever
the element holds: afterwards the element is the freshly initialised one,
280 x 280, white everywhere, with an empty path. -/
theorem brush_change_wipes_canvas (w : World) (r : CanvasRef)
    (hshown : canvasShown w.app = true) (hmounted : w.mounted = some r) :
    (∀ n, 1 ≤ n → n ≤ 30 → n ≠ w.app.brushSize →
      (dispatch (Event.setBrushSize n) w).dom r = Canvas.init n w.app.isErasing Canvas.fresh ∧
      ((dispatch (Event.setBrushSize n) w).dom r).width = 280 ∧
      ((dispatch (Event.setBrushSize n) w).dom r).height = 280 ∧
      ((dispatch (Event.setBrushSize n) w).dom r).path = [] ∧
      ∀ x y, x < 280 → y < 280 →
        ((dispatch (Event.setBrushSize n) w).dom r).pixels x y = Color.white) ∧
    (∀ e, e ≠ w.app.isErasing →
      (dispatch (Event.setErasing e) w).dom r = Canvas.init w.app.brushSize e Canvas.fresh ∧
      ((dispatch (Event.setErasing e) w).dom r).width = 280 ∧
      ((dispatch (Event.setErasing e) w).dom r).height = 280 ∧
      ((dispatch (Event.setErasing e) w).dom r).path = [] ∧
      ∀ x y, x < 280 → y < 280 →
        ((dispatch (Event.setErasing e) w).dom r).pixels x y = Color.white) := by
  constructor
  · intro n h1 h30 hne
    have hen : enabled (Event.setBrushSize n) w = true := by
      simp [enabled, hshown, h1, h30]
    have hdom : (dispatch (Event.setBrushSize n) w).dom r
        = Canvas.init n w.app.isErasing Canvas.fresh := by
      rw [dispatch, if_pos hen]
      exact commit_props_changed w.app (handle (Event.setBrushSize n) w) r
        (by rw [← hshown]; exact canvasShown_congr rfl rfl) hmounted (Or.inl hne) rfl rfl
    rw [hdom]
    exact ⟨rfl, rfl, rfl, rfl, fun x y hx hy => Canvas.init_pixels _ _ _ x y hx hy⟩
  · intro e hne
    have hen : enabled (Event.setErasing e) w = true := by
      simp [enabled, hshown]
    have hdom : (dispatch (Event.setErasing e) w).dom r
        = Canvas.init w.app.brushSize e Canvas.fresh := by
      rw [dispatch, if_pos hen]
      exact commit_props_changed w.app (handle (Event.setErasing e) w) r
        (by rw [← hshown]; exact canvasShown_congr rfl rfl) hmounted (Or.inr hne) rfl rfl
    rw [hdom]
    exact ⟨rfl, rfl, rfl, rfl, fun x y hx hy => Canvas.init_pixels _ _ _ x y hx hy⟩

/-- C10, at a concrete input: a stroke is under way on the canvas of
`scribbledWorld` and (5, 5) is inked; moving the slider from 10 to 20 leaves
(5, 5) white and the path empty. -/
theorem brush_change_wipes_canvas_witness :
    (scribbledWorld.dom 0).pixels 5 5 = Color.ink ∧
    (scribbledWorld.dom 0).path = [(5, 5), (6, 6)] ∧
    scribbledWorld.app.brushSize = 10 ∧
    ((dispatch (Event.setBrushSize 20) scribbledWorld).dom 0).pixels 5 5 = Color.white ∧
    ((dispatch (Event.setBrushSize 20) scribbledWorld).dom 0).path = [] :=
  have h := (brush_change_wipes_canvas scribbledWorld 0 (by decide!) (by decide!)).1 20
    (by decide) (by decide) (by decide!)
  ⟨by decide!, by decide!, by decide!, h.2.2.2.2 5 5 (by decide) (by decide), h.2.2.2.1⟩


/-! ## The timer invariant -/

theorem DrawingCanvas.effect_timer (snap : AppState) (w : World) :
    (DrawingCanvas.effect snap w).timer = w.timer ∧
    (DrawingCanvas.effect snap w).app.gameState = w.app.gameState ∧
    (DrawingCanvas.effect snap w).app.timeLeft = w.app.timeLeft := by
  unfold DrawingCanvas.effect
  cases w.mounted <;> exact ⟨rfl, rfl, rfl⟩

theorem DrawingCanvas.commit_timer (prev snap : AppState) (w : World) :
    (DrawingCanvas.commit prev snap w).timer = w.timer ∧
    (DrawingCanvas.commit prev snap w).app.gameState = w.app.gameState ∧
    (DrawingCanvas.commit prev snap w).app.timeLeft = w.app.timeLeft := by
  unfold DrawingCanvas.commit
  split
  · split
    · exact DrawingCanvas.effect_timer snap _
    · split
      · exact ⟨rfl, rfl, rfl⟩
      · exact DrawingCanvas.effect_timer snap w
  · exact ⟨rfl, rfl, rfl⟩

/-- After the timer effect has been committed for the render on the page,
the interval is live exactly when the new state wants it, and exactly when the
rendered state wanted it. -/
theorem timerCommit_sync (prev : AppState) (w : World) (snap : AppState)
    (hg : snap.gameState = w.app.gameState) (ht : snap.timeLeft = w.app.timeLeft)
    (hsync : w.timer = true ↔ timerWanted prev) :
    TimerSync (timerCommit prev snap w) ∧
    ((timerCommit prev snap w).timer = true ↔ timerWanted snap) := by
  unfold timerCommit
  split
  · rename_i hsame
    have hiff : timerWanted prev ↔ timerWanted snap := by
      simp [timerWanted, hsame.1, hsame.2]
    have hiff2 : timerWanted snap ↔ timerWanted w.app := by
      simp [timerWanted, hg, ht]
    exact ⟨hsync.trans (hiff.trans hiff2), hsync.trans hiff⟩
  · unfold timerEffect
    split
    · rename_i hwant
      have hw : timerWanted w.app := by
        simpa [timerWanted, hg, ht] using hwant
      exact ⟨⟨fun _ => hw, fun _ => rfl⟩, ⟨fun _ => hwant, fun _ => rfl⟩⟩
    · rename_i hnot
      have hnot1 : ¬ timerWanted snap := hnot
      split
      · constructor
        · simp [TimerSync, timerWanted, World.setApp]
        · simp [World.setApp, hnot1]
      · have hnot2 : ¬ timerWanted w.app := by
          simpa [timerWanted, hg, ht] using hnot
        constructor
        · simp [TimerSync, hnot2]
        · simp [hnot1]

theorem renderPass_sync (prev : AppState) (w : World)
    (hsync : w.timer = true ↔ timerWanted prev) :
    TimerSync (renderPass prev w) ∧ ((renderPass prev w).timer = true ↔ timerWanted w.app) := by
  unfold renderPass
  have hc := DrawingCanvas.commit_timer prev w.app w
  exact timerCommit_sync prev _ w.app hc.2.1.symm hc.2.2.symm (by rw [hc.1]; exact hsync)

theorem commit_sync (prev : AppState) (w : World)
    (hsync : w.timer = true ↔ timerWanted prev) : TimerSync (commit prev w) := by
  unfold commit
  exact (renderPass_sync w.app _ (renderPass_sync prev w hsync).2).1

/-- No handler touches the interval. -/
theorem handle_timer (e : Event) (w : World) : (handle e w).timer = w.timer := by
  cases e with
  | healthDone o =>
    cases o with
    | transportFailure => rfl
    | response ok body =>
      cases body with
      | none => rfl
      | some data =>
        simp only [handle, checkApiHealth]
        cases modelLoaded data <;> rfl
  | retry => rfl
  | start => rfl
  | timeout rnd =>
    simp only [handle]
    cases w.timeouts with
    | nil => rfl
    | cons snap rest =>
      simp only [nextRound, clearCanvas]
      split
      · rfl
      · cases snap.canvas <;> rfl
  | next rnd =>
    simp only [handle, nextRound, clearCanvas]
    split
    · rfl
    · cases w.app.canvas <;> rfl
  | freeDraw => rfl
  | home => rfl
  | clear =>
    simp only [handle, clearCanvas]
    cases w.app.canvas <;> rfl
  | analyze =>
    simp only [handle, predictDrawing]
    split
    · rfl
    · cases w.app.canvas <;> rfl
  | response i o =>
    simp only [handle]
    cases w.inflight.get? i with
    | none => rfl
    | some snap =>
      simp only [predictDrawingResume]
      split
      · split <;> rfl
      · rfl
      · rfl
  | chooseFile => rfl
  | imageLoaded i img =>
    simp only [handle]
    cases w.decoding.get? i with
    | none => rfl
    | some snap =>
      simp only [imgOnload]
      cases hc : snap.canvas with
      | none => rfl
      | some r =>
        simp only [predictDrawing, hc]
        split <;> rfl
  | setErasing b => rfl
  | setBrushSize n => rfl
  | pointerDown x y =>
    simp only [handle, DrawingCanvas.startDrawing]
    cases w.mounted <;> rfl
  | pointerMove x y stroked =>
    simp only [handle, DrawingCanvas.draw]
    split
    · cases w.mounted <;> rfl
    · rfl
  | pointerUp =>
    simp only [handle, DrawingCanvas.stopDrawing]
    cases w.mounted <;> rfl
  | tick =>
    simp only [handle, intervalTick]
    split <;> rfl

/-- On every page the interval is live exactly in `playing` with time left. -/
theorem reachable_timerSync (w : World) (h : Reachable w) : TimerSync w := by
  induction h with
  | init => simp [TimerSync, timerWanted, World.init, AppState.init]
  | step e w _ ih =>
    unfold dispatch
    split
    · exact commit_sync w.app (handle e w) (by rw [handle_timer]; exact ih)
    · exact ih


theorem renderPass_timeLeft (prev : AppState) (w : World) :
    (renderPass prev w).app.timeLeft = w.app.timeLeft := by
  have hc := DrawingCanvas.commit_timer prev w.app w
  unfold renderPass timerCommit timerEffect
  split
  · exact hc.2.2
  · split
    · exact hc.2.2
    · split
      · exact hc.2.2
      · exact hc.2.2

theorem renderPass_gameState_keep (prev : AppState) (w : World)
    (h : w.app.gameState ≠ GameState.playing) :
    (renderPass prev w).app.gameState = w.app.gameState := by
  have hc := DrawingCanvas.commit_timer prev w.app w
  unfold renderPass timerCommit timerEffect
  split
  · exact hc.2.1
  · split
    · exact hc.2.1
    · split
      · rename_i hz
        exact absurd hz.2 h
      · exact hc.2.1

theorem renderPass_gameState_timeout (prev : AppState) (w : World)
    (hplay : w.app.gameState = GameState.playing) (hzero : w.app.timeLeft = 0)
    (hprev : prev.timeLeft ≠ 0) :
    (renderPass prev w).app.gameState = GameState.gameOver := by
  unfold renderPass timerCommit timerEffect
  rw [if_neg (by rw [hzero]; exact fun h => hprev h.2.symm),
    if_neg (by rw [hzero]; exact fun h => lt_irrefl 0 h.2), if_pos ⟨hzero, hplay⟩]
  rfl

/-- C5: on every page the program can reach: (a) in `playing` with time left
the interval callback lowers `timeLeft` by exactly 1 and changes nothing
else; (b) the timer effect of a render in `playing` with `timeLeft = 0` sets
the state to `game-over` and changes nothing else, whatever the state cells
hold by then, an analysis result applied in between included, and a tick from
`timeLeft = 1` in `playing` ends in `game-over`; (c) in any other state the
interval is not live: its callback and the tick event change nothing. -/
theorem timer_rule (w : World) (hw : Reachable w) :
    (w.app.gameState = GameState.playing → 0 < w.app.timeLeft →
      intervalTick w = w.setApp (fun s => { s with timeLeft := s.timeLeft - 1 })) ∧
    (∀ snap : AppState, snap.gameState = GameState.playing → snap.timeLeft = 0 →
      (∀ cur : World, timerEffect snap cur
          = cur.setApp (fun s => { s with gameState := GameState.gameOver })) ∧
      (∀ (cur : World) (issued : AppState) (o : PredictOutcome),
        (timerEffect snap (predictDrawingResume issued o cur)).app.gameState
          = GameState.gameOver)) ∧
    (w.app.gameState = GameState.playing → w.app.timeLeft = 1 →
      (dispatch Event.tick w).app.gameState = GameState.gameOver ∧
      (dispatch Event.tick w).app.timeLeft = 0) ∧
    (w.app.gameState ≠ GameState.playing →
      intervalTick w = w ∧ dispatch Event.tick w = w) := by
  have hsync := reachable_timerSync w hw
  refine ⟨?_, ?_, ?_, ?_⟩
  · intro hplay hpos
    have ht : w.timer = true := hsync.2 ⟨hplay, hpos⟩
    simp [intervalTick, ht]
  · intro snap hplay hzero
    have heff : ∀ cur : World, timerEffect snap cur
        = cur.setApp (fun s => { s with gameState := GameState.gameOver }) := by
      intro cur
      simp [timerEffect, hplay, hzero]
    exact ⟨heff, fun cur issued o => by rw [heff]; rfl⟩
  · intro hplay hone
    have ht : w.timer = true := hsync.2 ⟨hplay, by rw [hone]; decide⟩
    have hen : enabled Event.tick w = true := ht
    have htick : handle Event.tick w
        = w.setApp (fun s => { s with timeLeft := s.timeLeft - 1 }) := by
      simp [handle, intervalTick, ht]
    have h1 : (renderPass w.app (handle Event.tick w)).app.gameState = GameState.gameOver :=
      renderPass_gameState_timeout w.app _ (by rw [htick]; exact hplay)
        (by rw [htick]; simp [World.setApp, hone]) (by rw [hone]; decide)
    rw [dispatch, if_pos hen, commit]
    constructor
    · rw [renderPass_gameState_keep _ _ (by rw [h1]; decide), h1]
    · rw [renderPass_timeLeft, renderPass_timeLeft, htick]
      simp [World.setApp, hone]
  · intro hnot
    have ht : w.timer = false := by
      cases hb : w.timer with
      | false => rfl
      | true => exact absurd (hsync.1 hb).1 hnot
    constructor
    · simp [intervalTick, ht]
    · simp [dispatch, enabled, ht]

/-- C5, at a concrete input: `playingWorld` is reachable, in `playing` with
60 seconds left, and a tick leaves 59. -/
theorem timer_rule_witness :
    Reachable playingWorld ∧
    playingWorld.app.gameState = GameState.playing ∧
    playingWorld.app.timeLeft = 60 ∧
    intervalTick playingWorld
      = playingWorld.setApp (fun s => { s with timeLeft := s.timeLeft - 1 }) ∧
    (playingWorld.setApp (fun s => { s with timeLeft := s.timeLeft - 1 })).app.timeLeft = 59 :=
  have hr : Reachable playingWorld :=
    Reachable.step (Event.timeout rndZero) _
      (Reachable.step Event.start _
        (Reachable.step (Event.healthDone healthyProbe) _ Reachable.init))
  ⟨hr, by decide!, by decide!,
    (timer_rule playingWorld hr).1 (by decide!) (by decide!), by decide!⟩

/-- A remark on C5: a result that arrives after the time ran out is applied
with the values of the render that sent the request; when that render was in
`playing` and the result matches, the finished game goes to `round-complete`
and the score grows. -/
theorem late_result_reopens_finished_game :
    (timerEffect { playingWorld.app with timeLeft := 0 } playingWorld).app.gameState
      = GameState.gameOver ∧
    (predictDrawingResume playingWorld.app
      (PredictOutcome.ok (some [{ category := "cat", probability := 1 }]))
      (timerEffect { playingWorld.app with timeLeft := 0 } playingWorld)).app.gameState
      = GameState.roundComplete := by
  decide!


/-! ## Starting a game and moving to the next round -/

/-- What `startGame` and the `nextRound` of its timeout do together, the
timeout reading the round counter of the render that was clicked: either the
game is over at once, or the round counter ends at 2. -/
theorem startGame_then_nextRound (w : World) (rnd : Rand) :
    (w.app.totalRounds ≤ w.app.round →
      (nextRound w.app rnd (startGame w.app w)).app.gameState = GameState.gameOver ∧
      (nextRound w.app rnd (startGame w.app w)).app.round = 1) ∧
    (w.app.round < w.app.totalRounds →
      (nextRound w.app rnd (startGame w.app w)).app.gameState = GameState.playing ∧
      (nextRound w.app rnd (startGame w.app w)).app.round = 2 ∧
      (nextRound w.app rnd (startGame w.app w)).app.score = 0 ∧
      (nextRound w.app rnd (startGame w.app w)).app.timeLeft = 60 ∧
      (nextRound w.app rnd (startGame w.app w)).app.prediction = none ∧
      ∃ c, (nextRound w.app rnd (startGame w.app w)).app.targetCategory = some c ∧
        c ∈ CATEGORIES) := by
  constructor
  · intro h
    simp [nextRound, startGame, World.setApp, h]
  · intro h
    obtain ⟨c, hc, hmem⟩ := randomCategory_mem rnd
    have hnot : ¬ w.app.totalRounds ≤ w.app.round := Nat.not_le.mpr h
    cases hcv : w.app.canvas with
    | none =>
      simp [nextRound, startGame, clearCanvas, World.setApp, hnot, hcv, hc, hmem]
    | some r =>
      simp [nextRound, startGame, clearCanvas, World.setApp, World.mutate, hnot, hcv, hc,
        hmem]

/-- The handler `nextRound` never sets the state to `playing`: it sets
`game-over` or leaves the state as it is. -/
theorem nextRound_gameState (snap : AppState) (rnd : Rand) (w : World) :
    (nextRound snap rnd w).app.gameState = GameState.gameOver ∨
    (nextRound snap rnd w).app.gameState = w.app.gameState := by
  unfold nextRound
  split
  · exact Or.inl rfl
  · refine Or.inr ?_
    simp only [clearCanvas]
    cases snap.canvas <;> rfl

/-- Below the last round, a click on Next Round adds 1 to the round counter,
draws a target from `CATEGORIES`, clears the prediction and fills the canvas
with white; the state stays what it was. -/
theorem nextRound_advances (w : World) (rnd : Rand) (r : CanvasRef)
    (hless : w.app.round < w.app.totalRounds) (hcanvas : w.app.canvas = some r) :
    (handle (Event.next rnd) w).app.round = w.app.round + 1 ∧
    (∃ c, (handle (Event.next rnd) w).app.targetCategory = some c ∧ c ∈ CATEGORIES) ∧
    (handle (Event.next rnd) w).app.prediction = none ∧
    (∀ x y, x < (w.dom r).width → y < (w.dom r).height →
      ((handle (Event.next rnd) w).dom r).pixels x y = Color.white) ∧
    (handle (Event.next rnd) w).app.gameState = w.app.gameState := by
  obtain ⟨c, hc, hmem⟩ := randomCategory_mem rnd
  have hnot : ¬ w.app.totalRounds ≤ w.app.round := Nat.not_le.mpr hless
  refine ⟨?_, ⟨c, ?_, hmem⟩, ?_, ?_, ?_⟩
  · simp [handle, nextRound, clearCanvas, World.setApp, World.mutate, hnot, hcanvas]
  · simp [handle, nextRound, clearCanvas, World.setApp, World.mutate, hnot, hcanvas, hc]
  · simp [handle, nextRound, clearCanvas, World.setApp, World.mutate, hnot, hcanvas]
  · intro x y hx hy
    simp [handle, nextRound, clearCanvas, World.setApp, World.mutate, hnot, hcanvas,
      Canvas.fillRect, hx, hy]
  · simp [handle, nextRound, clearCanvas, World.setApp, World.mutate, hnot, hcanvas]

/-- C2, the code at the failing inputs: Start Game on the first ready page
(idle, round 1 of 5) ends in `playing` with the round counter at 2, not 1;
Play Again after a game played to the end (game-over, round 5 of 5) ends in
`game-over` again, not in `playing`. -/
theorem start_game_misses_round_one :
    (readyWorld.app.gameState = GameState.idle ∧ readyWorld.app.round = 1 ∧
      readyWorld.app.totalRounds = 5) ∧
    ((run [Event.start, Event.timeout rndZero] readyWorld).app.gameState
        = GameState.playing ∧
      (run [Event.start, Event.timeout rndZero] readyWorld).app.round = 2 ∧
      (run [Event.start, Event.timeout rndZero] readyWorld).app.score = 0 ∧
      (run [Event.start, Event.timeout rndZero] readyWorld).app.timeLeft = 60 ∧
      (run [Event.start, Event.timeout rndZero] readyWorld).app.prediction = none ∧
      (run [Event.start, Event.timeout rndZero] readyWorld).app.targetCategory
        = some "cat") ∧
    (finishedWorld.app.gameState = GameState.gameOver ∧ finishedWorld.app.round = 5 ∧
      finishedWorld.app.totalRounds = 5) ∧
    ((run [Event.start, Event.timeout rndZero] finishedWorld).app.gameState
        = GameState.gameOver ∧
      (run [Event.start, Event.timeout rndZero] finishedWorld).app.round = 1) := by
  decide!

/-- C3, the code at the failing input: in `round-complete` at round 2 of 5 a
click on Next Round moves the round counter to 3, redraws the target and
clears the prediction, and the state is still `round-complete`, not
`playing`. -/
theorem next_round_stays_round_complete :
    (wonWorld.app.gameState = GameState.roundComplete ∧ wonWorld.app.round = 2 ∧
      wonWorld.app.totalRounds = 5) ∧
    (dispatch (Event.next rndZero) wonWorld).app.gameState = GameState.roundComplete ∧
    (dispatch (Event.next rndZero) wonWorld).app.gameState ≠ GameState.playing ∧
    (dispatch (Event.next rndZero) wonWorld).app.round = 3 ∧
    (dispatch (Event.next rndZero) wonWorld).app.prediction = none ∧
    (dispatch (Event.next rndZero) wonWorld).app.targetCategory = some "cat" := by
  decide!

/-- C6, the code at the failing input: with `totalRounds = 5`, a game in
which every round is won at once and followed by Next Round shows
`playing` with round 1 and then 2, after the win stays in `round-complete`
while the round counter runs from 2 to 5, and ends in `game-over`; it
enters `playing` once, not 5 times. -/
theorem winning_game_plays_one_round :
    readyWorld.app.totalRounds = 5 ∧
    winningGame 20 rndZero 1 readyWorld =
      [(GameState.playing, 1), (GameState.playing, 2), (GameState.roundComplete, 2),
       (GameState.roundComplete, 3), (GameState.roundComplete, 4),
       (GameState.roundComplete, 5), (GameState.gameOver, 5)] ∧
    playingEntries GameState.idle (winningGame 20 rndZero 1 readyWorld) = 1 := by
  decide!

end DoodlAI
